import Mathlib

/-!
Verification of the CuraLink client request/relationship layer.

The definitions below are a shallow embedding of the TypeScript gateway in
`src/frontend/src/lib/api.ts` (class `APIClient` together with `TokenManager`),
of the SQL schema in the repository, and — where the deciding code is the
server side that is not part of the repository snapshot — of components
modelled from the specification (each such definition says so in its doc
comment).  Strings are modelled as Lean strings, JavaScript `Map` as an
association list, axios cancel-token sources as natural-number identifiers.
-/

namespace CuraLink

/-- The JavaScript whitespace class `\s` (WhiteSpace ∪ LineTerminator), used
by the email regular expression and by `String.prototype.trim`. -/
def isJsWhitespace (c : Char) : Bool :=
  c = ' ' || c = '\t' || c = '\n' || c = '\x0b' || c = '\x0c' || c = '\r' ||
  c.val = 0xa0 || c.val = 0x1680 || (0x2000 ≤ c.val && c.val ≤ 0x200a) ||
  c.val = 0x2028 || c.val = 0x2029 || c.val = 0x202f || c.val = 0x205f ||
  c.val = 0x3000 || c.val = 0xfeff

/-- A character admissible in the `[^\s@]` classes of the e-mail regular
expression `/^[^\s@]+@[^\s@]+\.[^\s@]+$/` of `APIClient.validateEmail`. -/
def isEmailChar (c : Char) : Bool :=
  !(isJsWhitespace c) && !(c = '@')

/-- Split a character list at the first occurrence of `sep`; `none` when
`sep` does not occur. -/
def splitAtChar (sep : Char) : List Char → Option (List Char × List Char)
  | [] => none
  | c :: rest =>
    if c = sep then some ([], rest)
    else
      match splitAtChar sep rest with
      | none => none
      | some (l, r) => some (c :: l, r)

/-- True when the list contains a `'.'` that is not its last element. -/
def dotBeforeLast : List Char → Bool
  | [] => false
  | [_] => false
  | c :: rest => c = '.' || dotBeforeLast rest

/-- True when the list contains a `'.'` at an interior position (neither
first nor last element): the domain part of the regular expression needs a
non-empty run before the literal dot and a non-empty run after it. -/
def hasInteriorDot : List Char → Bool
  | [] => false
  | _ :: rest => dotBeforeLast rest

/-- `APIClient.validateEmail`: the anchored regular expression
`/^[^\s@]+@[^\s@]+\.[^\s@]+$/` matches exactly the strings of the form
`A@B.C` with `A`, `B`, `C` non-empty and free of whitespace and `'@'`
(`B` and `C` may themselves contain further dots). -/
def validateEmail (email : String) : Bool :=
  match splitAtChar '@' email.data with
  | none => false
  | some (loc, dom) =>
    !loc.isEmpty && loc.all isEmailChar && dom.all isEmailChar &&
      hasInteriorDot dom

/-- `String.prototype.trim`: drop JavaScript whitespace from both ends. -/
def jsTrim (s : String) : String :=
  ⟨((s.data.dropWhile isJsWhitespace).reverse.dropWhile isJsWhitespace).reverse⟩

/-- Observable effect of a gateway method that performs local validation
before touching the network: either it throws a local validation error, or
it issues the network request carrying payload `α`.  The constructor used
records whether any network call was made. -/
inductive ClientAction (α : Type) where
  | localError (msg : String)
  | networkCall (payload : α)
deriving DecidableEq

/-- True exactly when the action issued a network request. -/
def ClientAction.isNetwork {α : Type} : ClientAction α → Bool
  | .networkCall _ => true
  | .localError _ => false

/-- True exactly when the action failed with a local validation error
before any network request. -/
def ClientAction.isLocalError {α : Type} : ClientAction α → Bool
  | .localError _ => true
  | .networkCall _ => false

/-- `APIClient.login`: validates the email locally, then posts the
form-encoded credentials.  The source performs no local check on the
password — any password, including the empty one, is sent to the server. -/
def login (email password : String) : ClientAction (List (String × String)) :=
  if !(validateEmail email) then .localError "Invalid email format"
  else .networkCall [("username", email), ("password", password)]

/-- `APIClient.register`: validates the email, then `validatePassword`
(throws when the length is below 8), then posts the registration body. -/
def register (email password userType : String) :
    ClientAction (List (String × String)) :=
  if !(validateEmail email) then .localError "Invalid email format"
  else if password.length < 8 then
    .localError "Password must be at least 8 characters long"
  else .networkCall [("email", email), ("password", password),
    ("user_type", userType)]

/-- `APIClient.createForumPost`: rejects an empty (after trimming) title or
content locally, otherwise posts `{forum_id, title, content}`. -/
def createForumPost (forumId : Nat) (title content : String) :
    ClientAction (Nat × String × String) :=
  if jsTrim title = "" then .localError "Post title cannot be empty"
  else if jsTrim content = "" then .localError "Post content cannot be empty"
  else .networkCall (forumId, title, content)

/-- `APIClient.createForumReply`: rejects empty (after trimming) content
locally, otherwise posts `{post_id, content}`.  Note that the method takes
no actor and performs no role check before submitting. -/
def createForumReply (postId : Nat) (content : String) :
    ClientAction (Nat × String) :=
  if jsTrim content = "" then .localError "Reply content cannot be empty"
  else .networkCall (postId, content)

/-! ### Operation registry (cancellation / dedup)

`APIClient` keeps `cancelTokens : Map<string, CancelTokenSource>`.  We model
a `CancelTokenSource` by a natural-number identifier allocated from
`nextSource`; calling `.cancel()` on a source records its identifier in
`cancelledSources`.  Axios semantics: a request carrying a token whose
source has been cancelled settles by rejection with a `Cancel`, so the
operation's `catch` routes it to `handleError`, which throws
`"Request was cancelled"` — the response data are never returned. -/

/-- Mutable state of the `APIClient` relevant to cancellation. -/
structure ClientState where
  cancelTokens : List (String × Nat)
  cancelledSources : List Nat
  nextSource : Nat
deriving DecidableEq

/-- `Map.get` on the registry association list. -/
def mapLookup : List (String × Nat) → String → Option Nat
  | [], _ => none
  | (k, v) :: rest, key => if k = key then some v else mapLookup rest key

/-- `Map.delete` on the registry association list. -/
def mapErase : List (String × Nat) → String → List (String × Nat)
  | [], _ => []
  | (k, v) :: rest, key =>
    if k = key then mapErase rest key else (k, v) :: mapErase rest key

/-- `Map.set` on the registry association list (keys are kept unique). -/
def mapSet (m : List (String × Nat)) (key : String) (v : Nat) :
    List (String × Nat) :=
  mapErase m key ++ [(key, v)]

/-- `APIClient.cancelRequest`: if a source is registered under `key`,
cancel it and delete the registry entry. -/
def cancelRequest (key : String) (s : ClientState) : ClientState :=
  match mapLookup s.cancelTokens key with
  | none => s
  | some id =>
    { s with
      cancelledSources := id :: s.cancelledSources,
      cancelTokens := mapErase s.cancelTokens key }

/-- `APIClient.getCancelToken`: cancel any prior operation under `key`
first, then create a fresh source and register it under `key`. -/
def getCancelToken (key : String) (s : ClientState) : Nat × ClientState :=
  let s1 := cancelRequest key s
  (s1.nextSource,
    { s1 with
      cancelTokens := mapSet s1.cancelTokens key s1.nextSource,
      nextSource := s1.nextSource + 1 })

/-- Issuing a cancellable search-style operation
(`searchClinicalTrials`, `searchResearchers`, `searchPublications`,
`searchHealthExperts`): the method first obtains a cancel token for its
key and sends the request carrying it. -/
def searchStart (key : String) (s : ClientState) : Nat × ClientState :=
  getCancelToken key s

/-- What the network eventually reports for an in-flight request: the
response data (abstracted to a `Nat`) or a failure message. -/
inductive NetReply where
  | ok (data : Nat)
  | fail (msg : String)
deriving DecidableEq

/-- Result delivered to the caller of a search-style operation. -/
inductive SearchOutcome where
  | success (data : Nat)
  | cancelledError (msg : String)
  | requestError (msg : String)
deriving DecidableEq

/-- Settling of a search-style operation whose request was issued under
`key` with cancel-token source `src`.  If the source was cancelled, axios
rejects with a `Cancel` and `handleError` throws `"Request was cancelled"`
— the reply is discarded and the registry is untouched (the entry was
already removed when the source was cancelled).  On a fulfilled response
the method deletes the registry entry and returns the data; on any other
rejection `handleError` throws before the `delete` line runs, leaving the
registry as it was. -/
def searchComplete (key : String) (src : Nat) (reply : NetReply)
    (s : ClientState) : SearchOutcome × ClientState :=
  if src ∈ s.cancelledSources then
    (.cancelledError "Request was cancelled", s)
  else
    match reply with
    | .ok d => (.success d, { s with cancelTokens := mapErase s.cancelTokens key })
    | .fail m => (.requestError m, s)

/-- `APIClient.cancelAllRequests`: cancel every registered source and
clear the registry. -/
def cancelAllRequests (s : ClientState) : ClientState :=
  { s with
    cancelledSources := s.cancelTokens.map Prod.snd ++ s.cancelledSources,
    cancelTokens := [] }

/-- Well-formedness of a client state: every source identifier ever handed
out (cancelled or registered) is below the allocation counter, so a fresh
source is distinct from all of them.  The initial state satisfies it and
every operation preserves it. -/
def WF (s : ClientState) : Prop :=
  (∀ id ∈ s.cancelledSources, id < s.nextSource) ∧
  (∀ kv ∈ s.cancelTokens, kv.2 < s.nextSource)

/-! ### Credential store and the 401 interceptor -/

/-- How the server answered one gateway call: a fulfilled response with
data (abstracted to a `Nat`), an HTTP error status with an optional
`detail` message in its body, or no response at all. -/
inductive HttpOutcome where
  | ok (data : Nat)
  | httpError (status : Nat) (detail : Option String)
  | noResponse
deriving DecidableEq

/-- The response interceptor installed by `APIClient.setupInterceptors` on
the shared axios instance: on a rejected response with status 401 it
removes the stored token (`TokenManager.removeToken`) and redirects the
window to `/login`, then re-rejects the error.  Returns the credential
store afterwards and whether the redirect to the login flow fired. -/
def respInterceptor (token : Option String) (r : HttpOutcome) :
    Option String × Bool :=
  match r with
  | .httpError status _ => if status = 401 then (none, true) else (token, false)
  | _ => (token, false)

/-- `APIClient.handleError` restricted to axios errors: with a response,
throw the body's `detail` (the `message` field is collapsed into it) or
`Request failed with status N`; without a response, the fixed network
message.  The `ok` case never reaches `handleError`. -/
def handleError : HttpOutcome → String
  | .httpError status detail =>
    detail.getD ("Request failed with status " ++ toString status)
  | .noResponse => "No response from server. Please check your connection."
  | .ok _ => "An unexpected error occurred"

/-- Result observed by the caller of a gateway operation. -/
inductive OpResult where
  | success (data : Nat)
  | failure (msg : String)
deriving DecidableEq

/-- The uniform pipeline every gateway operation runs through: the shared
axios instance applies the response interceptor, and the operation's
`catch` block normalizes a rejection through `handleError`.  `opName`
identifies which operation was called; the pipeline does not depend on
it — the 401 reaction is installed once on the shared client.  Returns
the caller-visible result, the credential store afterwards, and whether
the forced redirect to `/login` fired. -/
def runOperation (_opName : String) (token : Option String)
    (reply : HttpOutcome) : OpResult × Option String × Bool :=
  let i := respInterceptor token reply
  match reply with
  | .ok d => (.success d, i)
  | _ => (.failure (handleError reply), i)

/-! ### Favorites (reference resolver) -/

/-- A row of the `favorites` table
(`UNIQUE(user_id, favorite_type, favorite_id)` in the schema). -/
structure Favorite where
  id : Nat
  user_id : Nat
  favorite_type : String
  favorite_id : String
deriving DecidableEq

/-- Body of `POST /api/favorites` (`FavoriteCreate` in `types/index.ts`). -/
structure FavoriteCreate where
  favorite_type : String
  favorite_id : String
deriving DecidableEq

/-- Whether a stored favorite matches the triple `(userId, type, id)`. -/
def favMatches (userId : Nat) (d : FavoriteCreate) (f : Favorite) : Bool :=
  f.user_id = userId && f.favorite_type = d.favorite_type &&
    f.favorite_id = d.favorite_id

/-- Modelled from the spec: the server-side handler of `POST /api/favorites`
(not part of the repository snapshot; the client `APIClient.addFavorite`
only posts the body).  Per the spec, `add` on an existing
`(actor, item_type, item_id)` triple is idempotent — it returns the
existing reference rather than erroring or duplicating — and otherwise
inserts a fresh row; the schema's `UNIQUE(user_id, favorite_type,
favorite_id)` keeps at most one matching row. -/
def addFavorite (store : List Favorite) (nextId userId : Nat)
    (data : FavoriteCreate) : Favorite × List Favorite :=
  match store.find? (favMatches userId data) with
  | some f => (f, store)
  | none =>
    (⟨nextId, userId, data.favorite_type, data.favorite_id⟩,
      store ++ [⟨nextId, userId, data.favorite_type, data.favorite_id⟩])

/-- Number of stored references matching the triple. -/
def matchCount (store : List Favorite) (userId : Nat)
    (d : FavoriteCreate) : Nat :=
  (store.filter (favMatches userId d)).length

/-- Modelled from the spec: the server-side handler of `GET /api/favorites`
(not part of the repository snapshot; the client `APIClient.getFavorites`
passes `favorite_type` as an optional query parameter).  It lists the
actor's references, filtered by type when the filter is present. -/
def getFavoritesServer (store : List Favorite) (userId : Nat)
    (favoriteType : Option String) : List Favorite :=
  store.filter (fun f =>
    f.user_id = userId &&
      match favoriteType with
      | none => true
      | some t => f.favorite_type = t)

/-- `APIClient.isFavorite` over the outcome of the underlying
`getFavorites` fetch: on a fulfilled fetch, membership of `itemId` among
the returned references (`favorites.some(fav => fav.favorite_id ===
itemId)`); on any fetch failure, the `catch` returns `false`. -/
def isFavorite (fetched : Except String (List Favorite)) (itemId : String) :
    Bool :=
  match fetched with
  | .ok favorites => favorites.any (fun fav => fav.favorite_id = itemId)
  | .error _ => false

/-! ### Roles and the forum access policy -/

/-- `UserType` from `types/index.ts` (`user_type` enum in the schema). -/
inductive UserType where
  | patient
  | researcher
deriving DecidableEq

/-- Modelled from the spec: the forum reply-permission predicate
`canReply(actor) = (actor.role == researcher)` (the schema documents the
`forum_replies.user_id` column as researcher-only; no such predicate
appears in the client code). -/
def canReply (role : UserType) : Bool :=
  role = .researcher

/-- Modelled from the spec: any authenticated actor may create a post. -/
def canPost (_ : UserType) : Bool :=
  true

/-- Server answer to a reply-creation call. -/
inductive ReplyResult where
  | created (postId authorId : Nat) (content : String)
  | forbidden
deriving DecidableEq

/-- Modelled from the spec: the authoritative server-side handler of
`POST /api/forums/replies` (not part of the repository snapshot).  It
rejects a non-researcher with a `Forbidden` condition and creates the
reply for a researcher. -/
def serverCreateReply (role : UserType) (actorId postId : Nat)
    (content : String) : ReplyResult :=
  if canReply role then .created postId actorId content else .forbidden

/-! ### Workflow engine: meeting requests and researcher connections -/

/-- Status values of a meeting request (`pending, approved, rejected` in
the schema). -/
inductive MeetingStatus where
  | pending
  | approved
  | rejected
deriving DecidableEq

/-- A row of the `meeting_requests` table (fields irrelevant to the
workflow are abstracted away). -/
structure MeetingRequest where
  id : Nat
  requester_id : Nat
  expert_id : Nat
  status : MeetingStatus
deriving DecidableEq

/-- Failure of a workflow transition. -/
inductive TransitionError where
  | invalidTransition
deriving DecidableEq

/-- Modelled from the spec: the server-side status-transition handler
behind `PUT /api/meeting-requests/:id` (not part of the repository
snapshot; the client `APIClient.updateMeetingRequestStatus` only puts the
new status).  `pending` is the only state admitting a transition, to
`approved` or `rejected`; both of those are absorbing, and an illegal
attempt fails with `InvalidTransition`. -/
def updateMeetingRequestStatus (mr : MeetingRequest)
    (newStatus : MeetingStatus) : Except TransitionError MeetingRequest :=
  match mr.status, newStatus with
  | .pending, .approved => .ok { mr with status := .approved }
  | .pending, .rejected => .ok { mr with status := .rejected }
  | _, _ => .error .invalidTransition

/-- Stored record after a transition attempt, paired with the error when
the attempt failed: a failed attempt leaves the record unchanged. -/
def applyStatusUpdate (mr : MeetingRequest) (newStatus : MeetingStatus) :
    MeetingRequest × Option TransitionError :=
  match updateMeetingRequestStatus mr newStatus with
  | .ok mr2 => (mr2, none)
  | .error e => (mr, some e)

/-- Status values of a researcher connection (`pending, accepted,
rejected` in the schema). -/
inductive ConnectionStatus where
  | pending
  | accepted
  | rejected
deriving DecidableEq

/-- A row of the `researcher_connections` table
(`UNIQUE(requester_id, receiver_id)` in the schema). -/
structure ResearcherConnection where
  id : Nat
  requester_id : Nat
  receiver_id : Nat
  status : ConnectionStatus
deriving DecidableEq

/-- Failure of a connection-request creation. -/
inductive ConnectionError where
  | duplicateRelationship
deriving DecidableEq

/-- Modelled from the spec: server-side creation of a researcher
connection request (the handler is not part of the repository snapshot;
the schema's `UNIQUE(requester_id, receiver_id)` rejects a second record
for the same ordered pair in any state).  A duplicate ordered pair fails
with `DuplicateRelationship`; otherwise a `pending` record is inserted. -/
def createConnection (store : List ResearcherConnection)
    (nextId req recv : Nat) :
    Except ConnectionError (List ResearcherConnection) :=
  if store.any (fun c => c.requester_id = req && c.receiver_id = recv) then
    .error .duplicateRelationship
  else
    .ok (store ++ [⟨nextId, req, recv, .pending⟩])

/-- Stored table after a creation attempt, paired with the error when the
attempt failed: a failed attempt leaves the table unchanged. -/
def applyCreateConnection (store : List ResearcherConnection)
    (nextId req recv : Nat) :
    List ResearcherConnection × Option ConnectionError :=
  match createConnection store nextId req recv with
  | .ok store2 => (store2, none)
  | .error e => (store, some e)

/-! ### Helper lemmas about the registry association list -/

theorem mapLookup_mem {m : List (String × Nat)} {k : String} {v : Nat}
    (h : mapLookup m k = some v) : (k, v) ∈ m := by
  induction m with
  | nil => simp [mapLookup] at h
  | cons kv rest ih =>
    obtain ⟨k0, v0⟩ := kv
    by_cases hk : k0 = k
    · simp [mapLookup, hk] at h
      simp [hk, h]
    · simp [mapLookup, hk] at h
      exact List.mem_cons_of_mem _ (ih h)

theorem mapLookup_mapErase_self (m : List (String × Nat)) (k : String) :
    mapLookup (mapErase m k) k = none := by
  induction m with
  | nil => rfl
  | cons kv rest ih =>
    obtain ⟨k0, v0⟩ := kv
    by_cases hk : k0 = k
    · simpa [mapErase, hk] using ih
    · simpa [mapErase, mapLookup, hk] using ih

theorem mapLookup_append_of_none {m1 : List (String × Nat)}
    (m2 : List (String × Nat)) {k : String} (h : mapLookup m1 k = none) :
    mapLookup (m1 ++ m2) k = mapLookup m2 k := by
  induction m1 with
  | nil => rfl
  | cons kv rest ih =>
    obtain ⟨k0, v0⟩ := kv
    by_cases hk : k0 = k
    · simp [mapLookup, hk] at h
    · simp [mapLookup, hk] at h ⊢
      exact ih h

theorem mapLookup_mapSet_self (m : List (String × Nat)) (k : String)
    (v : Nat) : mapLookup (mapSet m k v) k = some v := by
  unfold mapSet
  rw [mapLookup_append_of_none _ (mapLookup_mapErase_self m k)]
  simp [mapLookup]

theorem cancelRequest_nextSource (key : String) (s : ClientState) :
    (cancelRequest key s).nextSource = s.nextSource := by
  unfold cancelRequest
  split <;> rfl

theorem cancelRequest_of_lookup {s : ClientState} {key : String} {tA : Nat}
    (h : mapLookup s.cancelTokens key = some tA) :
    cancelRequest key s =
      ⟨mapErase s.cancelTokens key, tA :: s.cancelledSources, s.nextSource⟩ := by
  simp [cancelRequest, h]

/-! ### Claim theorems -/

/-- C1: starting a cancellable operation under a key that already has one
in flight cancels the prior operation before the new request is issued
(its source is cancelled already by the `cancelRequest` step of
`getCancelToken`), registers the fresh source under the key, and only the
most recent operation's result is ever delivered: whatever the network
eventually reports for the superseded request, its settling yields the
cancelled outcome and never a success, while the new request's fulfilled
response is delivered as success. -/
theorem search_supersede_delivers_latest (s : ClientState) (key : String)
    (tA : Nat) (hWF : WF s)
    (hInFlight : mapLookup s.cancelTokens key = some tA) :
    tA ∈ (cancelRequest key s).cancelledSources ∧
    mapLookup (searchStart key s).2.cancelTokens key
      = some (searchStart key s).1 ∧
    (searchStart key s).1 ∉ (searchStart key s).2.cancelledSources ∧
    (∀ reply, (searchComplete key tA reply (searchStart key s).2).1
      = .cancelledError "Request was cancelled") ∧
    (∀ dta, (searchComplete key (searchStart key s).1 (.ok dta)
      (searchStart key s).2).1 = .success dta) := by
  have hA_lt : tA < s.nextSource := hWF.2 (key, tA) (mapLookup_mem hInFlight)
  have hstart : searchStart key s =
      (s.nextSource,
        ⟨mapSet (mapErase s.cancelTokens key) key s.nextSource,
          tA :: s.cancelledSources, s.nextSource + 1⟩) := by
    simp [searchStart, getCancelToken, cancelRequest_of_lookup hInFlight]
  have hmemA : tA ∈ (searchStart key s).2.cancelledSources := by
    rw [hstart]
    exact List.mem_cons_self _ _
  have hnotB : (searchStart key s).1 ∉ (searchStart key s).2.cancelledSources := by
    rw [hstart]
    intro hmem
    rcases List.mem_cons.mp hmem with h | h
    · omega
    · exact absurd (hWF.1 _ h) (by omega)
  refine ⟨?_, ?_, hnotB, ?_, ?_⟩
  · rw [cancelRequest_of_lookup hInFlight]
    exact List.mem_cons_self _ _
  · rw [hstart]
    exact mapLookup_mapSet_self _ _ _
  · intro reply
    simp [searchComplete, hmemA]
  · intro dta
    simp [searchComplete, hnotB]

/-- Witness for C1 at a concrete state: key `searchTrials` holds in-flight
source 0; starting a new search cancels it, the superseded request settles
as cancelled whatever the network reports, and the new request's response
is delivered. -/
theorem search_supersede_witness :
    0 ∈ (cancelRequest "searchTrials"
      ⟨[("searchTrials", 0)], [], 1⟩).cancelledSources ∧
    (searchComplete "searchTrials" 0 (.fail "late")
      (searchStart "searchTrials" ⟨[("searchTrials", 0)], [], 1⟩).2).1
      = .cancelledError "Request was cancelled" ∧
    (searchComplete "searchTrials" 0 (.ok 7)
      (searchStart "searchTrials" ⟨[("searchTrials", 0)], [], 1⟩).2).1
      = .cancelledError "Request was cancelled" ∧
    (searchComplete "searchTrials"
      (searchStart "searchTrials" ⟨[("searchTrials", 0)], [], 1⟩).1 (.ok 7)
      (searchStart "searchTrials" ⟨[("searchTrials", 0)], [], 1⟩).2).1
      = .success 7 := by
  have h := search_supersede_delivers_latest ⟨[("searchTrials", 0)], [], 1⟩
    "searchTrials" 0 (by constructor <;> simp) (by decide)
  exact ⟨h.1, h.2.2.2.1 (.fail "late"), h.2.2.2.1 (.ok 7), h.2.2.2.2 7⟩

/-- C2 is refuted on the code: an operation that completes with a failure
does not remove its registry entry.  Starting a search from the empty
state registers source 0 under `searchTrials`; when the request fails,
`handleError` throws before the `delete` line runs, so the registry still
holds the entry of an operation that is no longer in flight. -/
theorem failed_search_leaves_dead_entry :
    (searchComplete "searchTrials"
      (searchStart "searchTrials" ⟨[], [], 0⟩).1 (.fail "Network Error")
      (searchStart "searchTrials" ⟨[], [], 0⟩).2).2.cancelTokens
      = [("searchTrials", 0)] ∧
    (searchComplete "searchTrials"
      (searchStart "searchTrials" ⟨[], [], 0⟩).1 (.fail "Network Error")
      (searchStart "searchTrials" ⟨[], [], 0⟩).2).1
      = .requestError "Network Error" := by
  decide

/-- C2 amended: a successful completion removes the operation's registry
entry, but a failed completion leaves the registry exactly as it was —
the dead entry persists until a later operation under the same key
replaces it or `cancelAllRequests` clears the registry (which always
leaves the registry empty). -/
theorem registry_cleanup_amended (s : ClientState) (key : String)
    (src dta : Nat) (m : String) (h : src ∉ s.cancelledSources) :
    (searchComplete key src (.ok dta) s).2.cancelTokens
      = mapErase s.cancelTokens key ∧
    (searchComplete key src (.fail m) s).2 = s ∧
    (cancelAllRequests s).cancelTokens = [] := by
  refine ⟨?_, ?_, rfl⟩ <;> simp [searchComplete, h]

/-- Witness for C2's amended statement at a concrete state. -/
theorem registry_cleanup_witness :
    (searchComplete "searchTrials" 0 (.ok 7)
      ⟨[("searchTrials", 0)], [], 1⟩).2.cancelTokens = [] ∧
    (searchComplete "searchTrials" 0 (.fail "boom")
      ⟨[("searchTrials", 0)], [], 1⟩).2 = ⟨[("searchTrials", 0)], [], 1⟩ := by
  have h := registry_cleanup_amended ⟨[("searchTrials", 0)], [], 1⟩
    "searchTrials" 0 7 "boom" (by decide)
  exact ⟨h.1.trans (by decide), h.2.1⟩

/-- C3: for every gateway operation, a 401 response leaves the credential
store empty and fires the forced redirect to the re-authentication flow,
while the rejection propagates to the caller as a failure (never a
success); a non-401 error leaves the store untouched and a fulfilled
response passes through unchanged.  The reaction is the same whatever
`opName` triggered it, because the interceptor lives on the shared
client. -/
theorem unauthenticated_reaction_global (opName : String)
    (token : Option String) (status : Nat) (detail : Option String)
    (dta : Nat) :
    (runOperation opName token (.httpError status detail)).2.1
      = (if status = 401 then none else token) ∧
    (runOperation opName token (.httpError status detail)).2.2
      = decide (status = 401) ∧
    (runOperation opName token (.httpError status detail)).1
      = .failure (handleError (.httpError status detail)) ∧
    (runOperation opName token (.ok dta))
      = (.success dta, token, false) := by
  by_cases h : status = 401 <;>
    simp [runOperation, respInterceptor, h]

/-- C4 is refuted on the code: `login` does not check the password
locally.  With a well-formed email and the empty password, `login` issues
the network call carrying the empty password instead of failing with a
local validation error. -/
theorem login_empty_password_reaches_network :
    validateEmail "a@b.c" = true ∧
    login "a@b.c" "" = .networkCall [("username", "a@b.c"), ("password", "")] ∧
    (login "a@b.c" "").isLocalError = false := by
  decide

/-- C4 amended: `login` pre-validates only the email — it reaches the
network exactly when the email is well-formed, regardless of the password
(so an empty password is sent) — while `register` behaves as claimed,
reaching the network exactly when the email is well-formed and the
password has at least 8 characters, failing locally otherwise. -/
theorem local_prevalidation_amended (email password userType : String) :
    (login email password).isNetwork = validateEmail email ∧
    (register email password userType).isNetwork
      = (validateEmail email && decide (8 ≤ password.length)) := by
  constructor
  · by_cases h : validateEmail email <;>
      simp [login, h, ClientAction.isNetwork]
  · by_cases h : validateEmail email
    · by_cases h2 : password.length < 8
      all_goals simp [register, h, h2, ClientAction.isNetwork]
      all_goals omega
    · simp [register, h, ClientAction.isNetwork]

/-- C5: adding the same favorite triple twice yields exactly one stored
reference, and the second add returns the very reference produced by the
first as a success, leaving the store unchanged.  The hypothesis is the
schema's uniqueness invariant (`UNIQUE(user_id, favorite_type,
favorite_id)`): at most one stored row matches the triple. -/
theorem addFavorite_idempotent (store : List Favorite) (n1 n2 userId : Nat)
    (d : FavoriteCreate) (hUnique : matchCount store userId d ≤ 1) :
    (addFavorite (addFavorite store n1 userId d).2 n2 userId d).1
      = (addFavorite store n1 userId d).1 ∧
    (addFavorite (addFavorite store n1 userId d).2 n2 userId d).2
      = (addFavorite store n1 userId d).2 ∧
    matchCount (addFavorite (addFavorite store n1 userId d).2 n2 userId d).2
      userId d = 1 := by
  cases h : store.find? (favMatches userId d) with
  | some f =>
    have hf : favMatches userId d f = true := List.find?_some h
    have hmem : f ∈ store := List.mem_of_find?_eq_some h
    have hpos : 0 < matchCount store userId d := by
      have : f ∈ store.filter (favMatches userId d) :=
        List.mem_filter.mpr ⟨hmem, hf⟩
      exact List.length_pos.mpr (List.ne_nil_of_mem this)
    simp only [addFavorite, h]
    exact ⟨trivial, trivial, by omega⟩
  | none =>
    have hnone : ∀ x ∈ store, ¬ favMatches userId d x :=
      List.find?_eq_none.mp h
    have hnew : favMatches userId d
        ⟨n1, userId, d.favorite_type, d.favorite_id⟩ = true := by
      simp [favMatches]
    have hfind2 : (store ++
        [(⟨n1, userId, d.favorite_type, d.favorite_id⟩ : Favorite)]).find?
        (favMatches userId d)
        = some ⟨n1, userId, d.favorite_type, d.favorite_id⟩ := by
      rw [List.find?_append, h]
      simp [List.find?, hnew]
    have hcount : matchCount (store ++
        [(⟨n1, userId, d.favorite_type, d.favorite_id⟩ : Favorite)])
        userId d = 1 := by
      unfold matchCount
      rw [List.filter_append, List.filter_eq_nil_iff.mpr hnone]
      simp [hnew]
    simp only [addFavorite, h, hfind2]
    exact ⟨trivial, trivial, hcount⟩

/-- Witness for C5: adding `(user 7, trial t1)` twice to the empty store
leaves one stored reference and the second add returns the first's. -/
theorem addFavorite_idempotent_witness :
    (addFavorite (addFavorite [] 0 7 ⟨"trial", "t1"⟩).2 1 7 ⟨"trial", "t1"⟩).1
      = (addFavorite [] 0 7 ⟨"trial", "t1"⟩).1 ∧
    (addFavorite (addFavorite [] 0 7 ⟨"trial", "t1"⟩).2 1 7 ⟨"trial", "t1"⟩).2
      = (addFavorite [] 0 7 ⟨"trial", "t1"⟩).2 ∧
    matchCount
      (addFavorite (addFavorite [] 0 7 ⟨"trial", "t1"⟩).2 1 7 ⟨"trial", "t1"⟩).2
      7 ⟨"trial", "t1"⟩ = 1 :=
  addFavorite_idempotent [] 0 1 7 ⟨"trial", "t1"⟩ (by decide)

/-- C6: `isFavorite` is the membership test by `favorite_id` over the
references returned by the fetch — in particular over the actor's
references filtered by the given type — and on any fetch failure it
returns the definite value `false` instead of propagating the error. -/
theorem isFavorite_membership_and_failsafe (store : List Favorite)
    (favorites : List Favorite) (userId : Nat) (itemId itemType e : String) :
    isFavorite (.ok favorites) itemId
      = favorites.any (fun fav => fav.favorite_id = itemId) ∧
    isFavorite (.ok (getFavoritesServer store userId (some itemType))) itemId
      = (getFavoritesServer store userId (some itemType)).any
          (fun fav => fav.favorite_id = itemId) ∧
    isFavorite (.error e) itemId = false :=
  ⟨rfl, rfl, rfl⟩

/-- C7 is refuted on the code: the client does not evaluate the
reply-permission predicate before submitting.  `createForumReply` takes no
actor at all; with non-empty content it issues the network call even
though `canReply` denies a patient. -/
theorem patient_reply_submitted_without_client_check :
    canReply UserType.patient = false ∧
    createForumReply 1 "hello" = .networkCall (1, "hello") ∧
    (createForumReply 1 "hello").isNetwork = true := by
  decide

/-- C7 amended: the reply-permission predicate is
`canReply(actor) = (actor.role == researcher)` and any authenticated
actor may post; the authoritative server (modelled from the spec) rejects
a patient's reply with `Forbidden` and creates a researcher's identical
reply; the client, however, does not evaluate the predicate before
submitting — `createForumReply` checks only that the content is non-empty
and issues the call for any role. -/
theorem forum_reply_policy_amended (role : UserType) (uid postId : Nat)
    (content : String) :
    canReply role = decide (role = .researcher) ∧
    canPost role = true ∧
    serverCreateReply .patient uid postId content = .forbidden ∧
    serverCreateReply .researcher uid postId content
      = .created postId uid content ∧
    (jsTrim content ≠ "" → (createForumReply postId content).isNetwork = true) := by
  refine ⟨rfl, rfl, rfl, rfl, ?_⟩
  intro h
  simp [createForumReply, h, ClientAction.isNetwork]

/-- Witness for C7's amended statement at a concrete call. -/
theorem forum_reply_policy_witness :
    serverCreateReply UserType.patient 0 1 "hi" = ReplyResult.forbidden ∧
    serverCreateReply UserType.researcher 0 1 "hi"
      = ReplyResult.created 1 0 "hi" ∧
    (createForumReply 1 "hi").isNetwork = true :=
  ⟨(forum_reply_policy_amended UserType.patient 0 1 "hi").2.2.1,
   (forum_reply_policy_amended UserType.researcher 0 1 "hi").2.2.2.1,
   (forum_reply_policy_amended UserType.patient 0 1 "hi").2.2.2.2 (by decide)⟩

/-- C8: a meeting request in a terminal state (`approved` or `rejected`)
rejects any further transition attempt with `InvalidTransition` and keeps
its stored status; and `pending` is the only state from which a
transition succeeds. -/
theorem meeting_terminal_absorbing :
    (∀ (mr : MeetingRequest) (newStatus : MeetingStatus),
      mr.status = .approved ∨ mr.status = .rejected →
      applyStatusUpdate mr newStatus = (mr, some .invalidTransition)) ∧
    (∀ (mr mr2 : MeetingRequest) (newStatus : MeetingStatus),
      updateMeetingRequestStatus mr newStatus = .ok mr2 →
      mr.status = .pending) := by
  constructor
  · rintro mr newStatus (h | h) <;> cases newStatus <;>
      simp [applyStatusUpdate, updateMeetingRequestStatus, h]
  · intro mr mr2 newStatus h
    cases hs : mr.status <;> cases newStatus <;>
      simp [updateMeetingRequestStatus, hs] at h ⊢

/-- Witness for C8: an approved request rejects a transition attempt and
keeps its status. -/
theorem meeting_terminal_absorbing_witness :
    applyStatusUpdate ⟨1, 2, 3, MeetingStatus.approved⟩ MeetingStatus.rejected
      = (⟨1, 2, 3, MeetingStatus.approved⟩,
          some TransitionError.invalidTransition) :=
  meeting_terminal_absorbing.1 ⟨1, 2, 3, .approved⟩ .rejected (Or.inl rfl)

/-- C9: creating a connection request for an ordered pair that already has
a record in any state fails with `DuplicateRelationship` and leaves the
stored table — in particular the existing record's state — unchanged. -/
theorem duplicate_connection_rejected (store : List ResearcherConnection)
    (nextId req recv : Nat)
    (h : ∃ c ∈ store, c.requester_id = req ∧ c.receiver_id = recv) :
    applyCreateConnection store nextId req recv
      = (store, some .duplicateRelationship) := by
  obtain ⟨c, hc, h1, h2⟩ := h
  have hAny : store.any
      (fun c => c.requester_id = req && c.receiver_id = recv) = true := by
    rw [List.any_eq_true]
    exact ⟨c, hc, by simp [h1, h2]⟩
  simp [applyCreateConnection, createConnection, hAny]

/-- Witness for C9, the spec's own scenario: the pair `(1, 2)` already has
a rejected record; resending the identical request fails with
`DuplicateRelationship` and the stored state remains `rejected`. -/
theorem duplicate_connection_rejected_witness :
    applyCreateConnection [⟨0, 1, 2, ConnectionStatus.rejected⟩] 5 1 2
      = ([⟨0, 1, 2, ConnectionStatus.rejected⟩],
          some ConnectionError.duplicateRelationship) :=
  duplicate_connection_rejected [⟨0, 1, 2, .rejected⟩] 5 1 2
    ⟨⟨0, 1, 2, .rejected⟩, by simp, rfl, rfl⟩

/-- C10: `createForumPost` with a title or content that is empty after
trimming fails with a local validation error before any network request,
and likewise `createForumReply` with empty-after-trimming content. -/
theorem forum_local_validation (forumId postId : Nat)
    (title content rcontent : String) :
    (jsTrim title = "" ∨ jsTrim content = "" →
      (createForumPost forumId title content).isLocalError = true) ∧
    (jsTrim rcontent = "" →
      (createForumReply postId rcontent).isLocalError = true) := by
  constructor
  · rintro (h | h)
    · simp [createForumPost, h, ClientAction.isLocalError]
    · unfold createForumPost
      split
      · simp [ClientAction.isLocalError]
      · simp [h, ClientAction.isLocalError]
  · intro h
    simp [createForumReply, h, ClientAction.isLocalError]

/-- Witness for C10 on whitespace-only inputs. -/
theorem forum_local_validation_witness :
    (createForumPost 1 " " "x").isLocalError = true ∧
    (createForumReply 2 "\t").isLocalError = true :=
  ⟨(forum_local_validation 1 2 " " "x" "\t").1 (Or.inl (by decide)),
   (forum_local_validation 1 2 " " "x" "\t").2 (by decide)⟩

end CuraLink
